import Mathlib

/-!
Verification development for the Trakt MCP server repository.

The embedding below translates the Python sources into Lean:
* `src/exceptions/__init__.py` — the error taxonomy (`TraktError` below);
* `src/api/__init__.py` — the resilient HTTP client: `attemptOnce` models one
  body execution of `_make_request` (classification of an HTTP response or a
  transport fault), and `retryRun`/`make_request` model the tenacity retry
  decorator (`retry_if_exception_type(NetworkError)`, `stop_after_attempt(3)`,
  `wait_exponential(multiplier=1, min=2, max=10)`, `reraise=True`);
* the per-endpoint client methods, parametrised by an `Exec` oracle standing
  for `_make_request` and returning the list of requests they issue;
* `src/formatters/__init__.py` — the pure formatting functions;
* `src/server.py` — the `call_tool` dispatcher with its error conversion;
* `src/config/__init__.py` — `validate_config`.

Python dynamic values (JSON payloads, tool arguments) are modelled by the
`Json` inductive; JSON numbers are modelled as integers (the claims under
verification never depend on fractional values).  Python truthiness, `str()`
/ `repr()` rendering and `int()` parsing are modelled by `pyTruthy`,
`pyToStr` / `Json.pyRepr` and `pyInt` (ASCII digits, optional sign,
surrounding whitespace, underscores between digits).
-/

/-- A single-quote character, used when rendering Python `repr` output. -/
def pySq : String := (Char.ofNat 39).toString

/-- Dynamic Python/JSON values (numbers modelled as integers). -/
inductive Json where
  | null : Json
  | bool (b : Bool) : Json
  | num (n : Int) : Json
  | str (s : String) : Json
  | arr (xs : List Json) : Json
  | obj (fields : List (String × Json)) : Json

/-- `isinstance(result, list)` — from the endpoint wrappers in `src/api/__init__.py`. -/
def Json.isArr : Json → Bool
  | .arr _ => true
  | _ => false

/-- `isinstance(result, dict)` — from the endpoint wrappers in `src/api/__init__.py`. -/
def Json.isObj : Json → Bool
  | .obj _ => true
  | _ => false

/-- Python truthiness of a dynamic value (`if x:`). -/
def pyTruthy : Json → Bool
  | .null => false
  | .bool b => b
  | .num n => n != 0
  | .str s => s != ""
  | .arr xs => !xs.isEmpty
  | .obj fs => !fs.isEmpty

mutual

/-- Python `repr` of a dynamic value (string escaping inside quotes is not
modelled; none of the verified claims depends on it). -/
def Json.pyRepr : Json → String
  | .null => "None"
  | .bool b => if b then "True" else "False"
  | .num n => toString n
  | .str s => pySq ++ s ++ pySq
  | .arr xs => "[" ++ pyReprElems xs ++ "]"
  | .obj fs => "\x7b" ++ pyReprFields fs ++ "\x7d"

/-- Comma-separated `repr`s of list elements. -/
def pyReprElems : List Json → String
  | [] => ""
  | [x] => x.pyRepr
  | x :: y :: rest => x.pyRepr ++ ", " ++ pyReprElems (y :: rest)

/-- Comma-separated `repr`s of dict entries. -/
def pyReprFields : List (String × Json) → String
  | [] => ""
  | [(k, v)] => pySq ++ k ++ pySq ++ ": " ++ v.pyRepr
  | (k, v) :: y :: rest => pySq ++ k ++ pySq ++ ": " ++ v.pyRepr ++ ", " ++ pyReprFields (y :: rest)

end

/-- Python `str()` of a dynamic value (as interpolated by f-strings). -/
def pyToStr : Json → String
  | .str s => s
  | j => j.pyRepr

/-- `dict.get(key, default)` on a Python dict. -/
def dictGetD (fs : List (String × Json)) (key : String) (dflt : Json) : Json :=
  match fs.lookup key with
  | some v => v
  | none => dflt

/-- `value.get(key, default)` where `value` is expected to be a dict.  A
non-dict value yields the default here; in Python it would raise
`AttributeError`.  This total accessor is used only on the dispatcher path
(`call_tool` handlers and the four formatters they invoke), where the
deviation is unobservable in the verified statements: `call_tool`'s blanket
`except Exception` converts such a fault to the same singleton text shape.
The single-season formatter verified by itself uses the fallible `jGetE`
instead. -/
def jGetD (j : Json) (key : String) (dflt : Json) : Json :=
  match j with
  | .obj fs => dictGetD fs key dflt
  | _ => dflt

/- ===================== Error taxonomy (src/exceptions/__init__.py) ===================== -/

/-- Which class of the taxonomy an error instance belongs to. -/
inductive TraktErrorKind where
  | base : TraktErrorKind
  | auth : TraktErrorKind
  | notFound : TraktErrorKind
  | network : TraktErrorKind
deriving DecidableEq

/-- An instance of `TraktAPIError` or one of its subclasses: carries the
class, `self.message` and `self.status_code`. -/
structure TraktError where
  kind : TraktErrorKind
  message : String
  status_code : Option Nat
deriving DecidableEq

/-- `TraktAPIError(message, status_code)`. -/
def TraktAPIError.make (message : String) (status_code : Option Nat) : TraktError :=
  ⟨.base, message, status_code⟩

/-- `AuthenticationError()` — always constructed with its default message. -/
def AuthenticationError.make : TraktError :=
  ⟨.auth, "Authentication required. Please configure TRAKT_ACCESS_TOKEN.", some 401⟩

/-- `ResourceNotFoundError()` — always constructed with its default message. -/
def ResourceNotFoundError.make : TraktError :=
  ⟨.notFound, "Resource not found on Trakt", some 404⟩

/-- `NetworkError(message)` — prefixes the message, no status code. -/
def NetworkError.make (message : String) : TraktError :=
  ⟨.network, "Network error: " ++ message, none⟩

/- ===================== One attempt of `_make_request` ===================== -/

/-- An HTTP response as observed by `_make_request`: status code, raw body
text (`response.text`; the body is empty iff this is `""`), and the value
`response.json()` would yield for a parseable body. -/
structure HTTPResponse where
  status_code : Nat
  text : String
  json : Json

/-- What a single underlying `httpx` request does: deliver a response, or
fail with one of the transport faults `_make_request` catches. -/
inductive TransportOutcome where
  | response (r : HTTPResponse) : TransportOutcome
  | timeout (msg : String) : TransportOutcome
  | connectError (msg : String) : TransportOutcome
  | requestError (msg : String) : TransportOutcome

/-- Transport-level faults (the retryable class). -/
def TransportOutcome.isFault : TransportOutcome → Bool
  | .response _ => false
  | _ => true

/-- `response.is_success` in httpx: a 2xx status (`raise_for_status` raises
for anything else). -/
def is2xx (status : Nat) : Bool :=
  200 ≤ status && status < 300

/-- One execution of the body of `_make_request` (src/api/__init__.py):
classify the response status or the transport fault exactly as the
`try`/`except` chain does. -/
def attemptOnce (o : TransportOutcome) : Except TraktError Json :=
  match o with
  | .response r =>
    if is2xx r.status_code then
      -- Handle empty responses (e.g., 204 No Content)
      if r.status_code = 204 || r.text = "" then .ok (.obj [])
      else .ok r.json
    else
      if r.status_code = 401 then .error AuthenticationError.make
      else if r.status_code = 404 then .error ResourceNotFoundError.make
      else if r.status_code = 429 then
        .error (TraktAPIError.make "Rate limit exceeded. Please try again later." (some 429))
      else
        .error (TraktAPIError.make
          ("HTTP " ++ toString r.status_code ++ ": " ++ r.text)
          (some r.status_code))
  | .timeout m => .error (NetworkError.make ("Request timeout: " ++ m))
  | .connectError m => .error (NetworkError.make ("Connection failed: " ++ m))
  | .requestError m => .error (NetworkError.make m)

/- ===================== The tenacity retry decorator ===================== -/

/-- tenacity `wait_exponential(multiplier, min, max)` with base 2: the sleep
computed after the attempt numbered `attempt_number` (1-based) fails is
`multiplier * 2 ^ (attempt_number - 1)` clamped into `[min, max]`.  For the
parameters used here (`multiplier=1, min=2, max=10`) the raw values for the
two sleeps are 1 and 2, and the `min=2` floor clamps both to 2 — the source
comment "Exponential backoff: 2s, 4s, 8s" describes the intent, not what
these parameters compute. -/
def wait_exponential (multiplier minW maxW attempt_number : Nat) : Nat :=
  Nat.max minW (Nat.min (multiplier * 2 ^ (attempt_number - 1)) maxW)

/-- The retry loop of the decorator on `_make_request`: `outcomes i` is what
the underlying transport does on the (0-based) `i`-th attempt, `done` counts
completed attempts and `remaining` the attempts still permitted by
`stop_after_attempt`.  Returns the final result (`reraise=True` propagates
the last error), the total number of attempts executed, and the list of
inter-attempt sleeps. -/
def retryRun (outcomes : Nat → TransportOutcome) :
    Nat → Nat → Except TraktError Json × Nat × List Nat
  | done, 0 => (attemptOnce (outcomes done), done + 1, [])
  | done, remaining + 1 =>
    match attemptOnce (outcomes done) with
    | .ok v => (.ok v, done + 1, [])
    | .error e =>
      if e.kind = TraktErrorKind.network then
        match remaining with
        | 0 => (.error e, done + 1, [])
        | _ + 1 =>
          let d := wait_exponential 1 2 10 (done + 1)
          let rest := retryRun outcomes (done + 1) remaining
          (rest.1, rest.2.1, d :: rest.2.2)
      else (.error e, done + 1, [])

/-- `_make_request` as decorated: retry on `NetworkError` only, stop after 3
attempts, exponential backoff `multiplier=1, min=2, max=10`, reraise. -/
def make_request (outcomes : Nat → TransportOutcome) :
    Except TraktError Json × Nat × List Nat :=
  retryRun outcomes 0 3

/- ===================== Python `int()` on dynamic values ===================== -/

/-- Digits (optionally separated by single underscores) parsed left to right;
an underscore must be followed by a digit and, by the caller's precondition,
preceded by one. -/
def parseDigitsCore : List Char → Nat → Option Nat
  | [], acc => some acc
  | c :: cs, acc =>
    if c.isDigit then parseDigitsCore cs (acc * 10 + (c.toNat - 48))
    else if c = '_' then
      match cs with
      | d :: _ => if d.isDigit then parseDigitsCore cs acc else none
      | [] => none
    else none

/-- An unsigned integer literal: nonempty and starting with a digit. -/
def parseUnsigned (cs : List Char) : Option Nat :=
  match cs with
  | [] => none
  | c :: _ => if c.isDigit then parseDigitsCore cs 0 else none

/-- Strip leading and trailing whitespace from a character list. -/
def stripWs (cs : List Char) : List Char :=
  ((cs.dropWhile Char.isWhitespace).reverse.dropWhile Char.isWhitespace).reverse

/-- Python `int(s)` on a string: optional surrounding whitespace, optional
sign, then a digit sequence with optional single underscores between digits
(ASCII digits only; Unicode digit classes are not modelled). `none` stands
for `ValueError`. -/
def pyInt (s : String) : Option Int :=
  let cs := stripWs s.toList
  if cs.head? = some '+' then (parseUnsigned cs.tail).map Int.ofNat
  else if cs.head? = some '-' then (parseUnsigned cs.tail).map (fun n => -(Int.ofNat n))
  else (parseUnsigned cs).map Int.ofNat

/-- The `^[0-9]+$` pattern enforced by the tool argument schemas. -/
def matchesDigitsOnly (s : String) : Bool :=
  !s.toList.isEmpty && s.toList.all Char.isDigit

/- ===================== Exceptions crossing the dispatcher ===================== -/

/-- The Python exceptions that can reach `call_tool`'s `except` chain:
taxonomy errors, `KeyError` (carrying the missing key), `ValueError` and
`TypeError` (from `int()`), and anything else. -/
inductive PyExc where
  | trakt (e : TraktError) : PyExc
  | keyError (key : String) : PyExc
  | valueError (msg : String) : PyExc
  | typeError (msg : String) : PyExc
  | other (msg : String) : PyExc

/-- Python `int(x)` on a dynamic value: integers (and bools) convert,
strings are parsed, anything else is a `TypeError`. -/
def pyIntOfJson : Json → Except PyExc Int
  | .num n => .ok n
  | .bool b => .ok (if b then 1 else 0)
  | .str s =>
    match pyInt s with
    | some n => .ok n
    | none => .error (.valueError
        ("invalid literal for int() with base 10: " ++ pySq ++ s ++ pySq))
  | _ => .error (.typeError
      "int() argument must be a string, a bytes-like object or a real number")

/- ===================== Per-endpoint client methods (src/api/__init__.py) ===================== -/

/-- `SEARCH_LIMIT` constant. -/
def SEARCH_LIMIT : Int := 10

/-- The request a client method hands to `_make_request`: HTTP method,
endpoint, `params=` query mapping, and `json=` body. -/
structure RequestDescriptor where
  httpMethod : String
  endpoint : String
  params : List (String × Json)
  body : Option Json

/-- An oracle for what `_make_request` returns to a wrapper: parsed data, a
taxonomy error, or any other exception (e.g. a JSON decode failure). -/
def Exec : Type := RequestDescriptor → Except PyExc Json

/-- `result if isinstance(result, list) else []`. -/
def coerceToList (j : Json) : List Json :=
  match j with
  | .arr xs => xs
  | _ => []

/-- `result if isinstance(result, dict) else {}`. -/
def coerceToDict (j : Json) : List (String × Json) :=
  match j with
  | .obj fs => fs
  | _ => []

/-- `get_watched_shows`: GET /sync/watched/shows, extended=full, list-coerced.
The second component is the list of requests the method issued. -/
def get_watched_shows (exec : Exec) :
    Except PyExc (List Json) × List RequestDescriptor :=
  let d : RequestDescriptor := ⟨"GET", "/sync/watched/shows", [("extended", .str "full")], none⟩
  ((exec d).map coerceToList, [d])

/-- `get_watchlist`: GET /sync/watchlist/shows, extended=full, list-coerced. -/
def get_watchlist (exec : Exec) :
    Except PyExc (List Json) × List RequestDescriptor :=
  let d : RequestDescriptor := ⟨"GET", "/sync/watchlist/shows", [("extended", .str "full")], none⟩
  ((exec d).map coerceToList, [d])

/-- The body `{"shows": [{"ids": {"trakt": int(show_id)}}]}`. -/
def showsPayload (n : Int) : Json :=
  .obj [("shows", .arr [.obj [("ids", .obj [("trakt", .num n)])]])]

/-- The body `{"episodes": [{"ids": {"trakt": int(episode_id)}}]}`. -/
def episodesPayload (n : Int) : Json :=
  .obj [("episodes", .arr [.obj [("ids", .obj [("trakt", .num n)])]])]

/-- `add_to_watchlist`: `int(show_id)` first (a failure there raises before
any request is issued), then POST /sync/watchlist, dict-coerced. -/
def add_to_watchlist (exec : Exec) (show_id : Json) :
    Except PyExc (List (String × Json)) × List RequestDescriptor :=
  match pyIntOfJson show_id with
  | .error e => (.error e, [])
  | .ok n =>
    let d : RequestDescriptor := ⟨"POST", "/sync/watchlist", [], some (showsPayload n)⟩
    ((exec d).map coerceToDict, [d])

/-- `remove_from_watchlist`: POST /sync/watchlist/remove, dict-coerced. -/
def remove_from_watchlist (exec : Exec) (show_id : Json) :
    Except PyExc (List (String × Json)) × List RequestDescriptor :=
  match pyIntOfJson show_id with
  | .error e => (.error e, [])
  | .ok n =>
    let d : RequestDescriptor := ⟨"POST", "/sync/watchlist/remove", [], some (showsPayload n)⟩
    ((exec d).map coerceToDict, [d])

/-- `search_shows`: GET /search/show with query and the fixed limit, list-coerced. -/
def search_shows (exec : Exec) (query : Json) :
    Except PyExc (List Json) × List RequestDescriptor :=
  let d : RequestDescriptor := ⟨"GET", "/search/show", [("query", query), ("limit", .num SEARCH_LIMIT)], none⟩
  ((exec d).map coerceToList, [d])

/-- `get_trending_shows`: GET with the limit interpolated into the path, list-coerced. -/
def get_trending_shows (exec : Exec) (limit : Json) :
    Except PyExc (List Json) × List RequestDescriptor :=
  let d : RequestDescriptor := ⟨"GET", "/shows/trending?limit=" ++ pyToStr limit, [], none⟩
  ((exec d).map coerceToList, [d])

/-- `get_show_all_episodes`: GET /shows/{id}/seasons, extended=episodes, list-coerced. -/
def get_show_all_episodes (exec : Exec) (show_id : Json) :
    Except PyExc (List Json) × List RequestDescriptor :=
  let d : RequestDescriptor :=
    ⟨"GET", "/shows/" ++ pyToStr show_id ++ "/seasons", [("extended", .str "episodes")], none⟩
  ((exec d).map coerceToList, [d])

/-- `get_show_season_episodes`: GET /shows/{id}/seasons/{n}, extended=min, list-coerced. -/
def get_show_season_episodes (exec : Exec) (show_id : Json) (season : Int) :
    Except PyExc (List Json) × List RequestDescriptor :=
  let d : RequestDescriptor :=
    ⟨"GET", "/shows/" ++ pyToStr show_id ++ "/seasons/" ++ toString season,
      [("extended", .str "min")], none⟩
  ((exec d).map coerceToList, [d])

/-- `mark_episode_as_watched`: `int(episode_id)` first, then POST
/sync/history, dict-coerced. -/
def mark_episode_as_watched (exec : Exec) (episode_id : Json) :
    Except PyExc (List (String × Json)) × List RequestDescriptor :=
  match pyIntOfJson episode_id with
  | .error e => (.error e, [])
  | .ok n =>
    let d : RequestDescriptor := ⟨"POST", "/sync/history", [], some (episodesPayload n)⟩
    ((exec d).map coerceToDict, [d])

/- ===================== Formatting helpers ===================== -/

/-- Python `sep.join(parts)`. -/
def pyJoin (sep : String) : List String → String
  | [] => ""
  | [a] => a
  | a :: b :: rest => a ++ sep ++ pyJoin sep (b :: rest)

/-- Python `len()` of a dynamic value (sized values only). -/
def jLen : Json → Nat
  | .arr xs => xs.length
  | .obj fs => fs.length
  | .str s => s.length
  | _ => 0

/-- `x == "some string"` on a dynamic value. -/
def jEqStr (j : Json) (s : String) : Bool :=
  match j with
  | .str t => t == s
  | _ => false

/-- `value[:10]` where the value is expected to be a string (ISO timestamp).
Total rendering used only by the dispatcher-path formatters (see `jGetD` on
why the deviation is unobservable there); the single-season formatter uses
the fallible `pySliceTen`. -/
def jSlice10 (j : Json) : String :=
  String.mk ((pyToStr j).toList.take 10)

/-- `value > 0` in Python: defined for numbers (`True > 0` holds since
`bool` is an `int`), a `TypeError` for everything else. -/
def jGtZero : Json → Except PyExc Bool
  | .num n => .ok (decide (0 < n))
  | .bool b => .ok b
  | _ => .error (.typeError "unsupported operand comparison with int")

/-- The numeric value of a dynamic number, for `sum(...)`. -/
def jNumVal : Json → Int
  | .num n => n
  | .bool b => if b then 1 else 0
  | _ => 0

/-- `{x:.1f}` on an integer-valued number (JSON numbers are modelled as
integers, so the fractional digit is always 0 here; `True`/`False` format as
`1.0`/`0.0` because `bool` is an `int`). -/
def fixed1 (j : Json) : String :=
  match j with
  | .num n => toString n ++ ".0"
  | .bool b => (if b then "1" else "0") ++ ".0"
  | _ => pyToStr j

/-- `{x:02d}`: zero-pads an int (or bool) to width 2; any other value makes
the f-string raise — `ValueError` for a `str` such as the `"?"` default,
`TypeError` otherwise. -/
def pad2 : Json → Except PyExc String
  | .num n => .ok (if 0 ≤ n ∧ n < 10 then "0" ++ toString n else toString n)
  | .bool b => .ok ("0" ++ if b then "1" else "0")
  | .str _ => .error (.valueError
      "Unknown format code 'd' for object of type 'str'")
  | _ => .error (.typeError "unsupported format string passed to object.__format__")

/-- `value.get(key, default)` raising `AttributeError` (modelled in the
catch-all exception class) when the receiver is not a dict. -/
def jGetE (j : Json) (key : String) (dflt : Json) : Except PyExc Json :=
  match j with
  | .obj fs => .ok (dictGetD fs key dflt)
  | _ => .error (.other "AttributeError: object has no attribute get")

/-- `value[:10]`: strings slice by character, lists by element; any other
value raises `TypeError` (not subscriptable). -/
def pySliceTen : Json → Except PyExc Json
  | .str s => .ok (.str (String.mk (s.toList.take 10)))
  | .arr xs => .ok (.arr (xs.take 10))
  | _ => .error (.typeError "object is not subscriptable")

/-- A nonnegative number of tenths rendered with one decimal digit (stands
for `{avg:.1f}`; the average is modelled exactly in tenths, truncated). -/
def tenthsToStr (t : Int) : String :=
  toString (t / 10) ++ "." ++ toString (t % 10)

/-- Thousands separators for `{watchers:,}`. -/
def insertCommasRev : List Char → Nat → List Char
  | [], _ => []
  | c :: cs, k =>
    if k == 3 then ',' :: c :: insertCommasRev cs 1
    else c :: insertCommasRev cs (k + 1)

/-- `{n:,}` on a natural number. -/
def pyThousandsNat (n : Nat) : String :=
  String.mk (insertCommasRev (toString n).toList.reverse 0).reverse

/-- `{x:,}` on a dynamic value expected to be a number. -/
def pyThousands (j : Json) : String :=
  match j with
  | .num n => if n < 0 then "-" ++ pyThousandsNat n.natAbs else pyThousandsNat n.natAbs
  | _ => pyToStr j

/- ===================== Formatters (src/formatters/__init__.py) ===================== -/

/-- `format_watched_shows`. -/
def format_watched_shows (shows : List Json) : String :=
  match shows with
  | [] => "📺 No watched shows found in your history."
  | _ =>
    let header := "📺 **Watch History** (Total: " ++ toString shows.length ++ " shows)\n"
    let lines := shows.map (fun item =>
      let showObj := jGetD item "show" (.obj [])
      let title := jGetD showObj "title" (.str "Unknown")
      let year := jGetD showObj "year" (.str "N/A")
      let seasons := jGetD item "seasons" (.arr [])
      let seasons_count := if pyTruthy seasons then jLen seasons else 0
      let last_watched := jGetD item "last_watched_at" (.str "N/A")
      let last_date := if !(jEqStr last_watched "N/A") then jSlice10 last_watched else "N/A"
      "• **" ++ pyToStr title ++ "** (" ++ pyToStr year ++ ") — " ++ toString seasons_count
        ++ " seasons • Last: " ++ last_date)
    pyJoin "\n" (header :: lines)

/-- `format_watchlist`. -/
def format_watchlist (watchlist : List Json) : String :=
  match watchlist with
  | [] => "📝 Your watchlist is empty. Add shows you want to watch later!"
  | _ =>
    let header := "📝 **Your Watchlist** (Total: " ++ toString watchlist.length ++ " shows)\n"
    let lines := watchlist.map (fun item =>
      let showObj := jGetD item "show" (.obj [])
      let title := jGetD showObj "title" (.str "Unknown")
      let year := jGetD showObj "year" (.str "N/A")
      let aired_episodes := jGetD showObj "aired_episodes" (.num 0)
      let added_at := jGetD item "listed_at" (.str "")
      let added_date := if pyTruthy added_at then jSlice10 added_at else "N/A"
      "• **" ++ pyToStr title ++ "** (" ++ pyToStr year ++ ") — " ++ pyToStr aired_episodes
        ++ " episodes • Added: " ++ added_date)
    pyJoin "\n" (header :: lines)

/-- `format_search_results`. -/
def format_search_results (query : String) (results : List Json) : String :=
  match results with
  | [] => "🔍 No shows found matching " ++ pySq ++ query ++ pySq
  | _ =>
    let header := "🔍 **Search Results for " ++ pySq ++ query ++ pySq ++ "** (Top "
      ++ toString results.length ++ " matches)\n"
    let lines := results.map (fun item =>
      let showObj := jGetD item "show" (.obj [])
      let trakt_id := jGetD (jGetD showObj "ids" (.obj [])) "trakt" .null
      let year := jGetD showObj "year" (.str "N/A")
      let rating := jGetD showObj "rating" (.num 0)
      "• **" ++ pyToStr (jGetD showObj "title" .null) ++ "** (" ++ pyToStr year ++ ") — ⭐ "
        ++ fixed1 rating ++ "/10 • ID: " ++ pyToStr trakt_id)
    pyJoin "\n" (header :: lines)

/-- `format_trending_shows`. -/
def format_trending_shows (trending : List Json) : String :=
  match trending with
  | [] => "📈 No trending shows available at the moment."
  | _ =>
    let header := "📈 **Trending Shows** (Top " ++ toString trending.length ++ ")\n"
    let lines := trending.enum.map (fun p =>
      let item := p.2
      let showObj := jGetD item "show" (.obj [])
      let watchers := jGetD item "watchers" (.num 0)
      let year := jGetD showObj "year" (.str "N/A")
      toString (p.1 + 1) ++ ". **" ++ pyToStr (jGetD showObj "title" .null) ++ "** ("
        ++ pyToStr year ++ ") — 👥 " ++ pyThousands watchers ++ " watchers")
    pyJoin "\n" (header :: lines)

/-- `_format_episode_line` — one episode line, compact or detailed.  Fallible
exactly where the Python is: each `.get` raises on a non-dict receiver, the
`[:10]` slice raises on a non-subscriptable truthy timestamp, `ep_rating > 0`
raises on a non-number, and `{ep_num:02d}` raises on a non-int episode
number (such as the `"?"` default used when `"number"` is absent). -/
def _format_episode_line (episode : Json) (season_num : Int) (compact : Bool)
    (label : Option String) : Except PyExc String := do
  let ep_num ← jGetE episode "number" (.str "?")
  let ids ← jGetE episode "ids" (.obj [])
  let ep_id ← jGetE ids "trakt" (.str "N/A")
  let title ← jGetE episode "title" (.str "Untitled")
  let first_aired ← jGetE episode "first_aired" (.str "")
  let air_date ←
    if pyTruthy first_aired then do
      let sliced ← pySliceTen first_aired
      pure (pyToStr sliced)
    else pure "TBA"
  let ep_rating ← jGetE episode "rating" (.num 0)
  if compact then
    let prefixStr ←
      match label with
      | some l =>
        if l == "" then do
          let padded ← pad2 ep_num
          pure ("  " ++ toString season_num ++ "x" ++ padded ++ " - ")
        else pure ("  " ++ l ++ " - ")
      | none => do
        let padded ← pad2 ep_num
        pure ("  " ++ toString season_num ++ "x" ++ padded ++ " - ")
    pure (prefixStr ++ "**" ++ pyToStr title ++ "** (aired: " ++ air_date ++ ") • ID: "
      ++ pyToStr ep_id)
  else do
    let pos ← jGtZero ep_rating
    let rating_str := if pos then " • ⭐ " ++ fixed1 ep_rating ++ "/10" else ""
    let padded ← pad2 ep_num
    pure (toString season_num ++ "x" ++ padded ++ " - **" ++ pyToStr title ++ "**\n  Aired: "
      ++ air_date ++ rating_str ++ "\n  Episode ID: " ++ pyToStr ep_id)

/-- `format_show_season_episodes` — detailed single-season view, fallible
like the Python (field access, comparison and `{:02d}` formatting raise on
ill-typed episode values; the empty-list early return touches no episode and
cannot raise).  `ep.get("rating", 0)` appears once per episode here where
the comprehension evaluates it twice with the same value and the same error
behaviour.  The average rating is computed exactly in tenths (integer model
of JSON numbers) rather than in floating point; the season label logic is
untouched by this. -/
def format_show_season_episodes (episodes : List Json) (season_num : Int) :
    Except PyExc String :=
  match episodes with
  | [] => .ok ("📺 No episodes found for season " ++ toString season_num ++ ".")
  | _ => do
    let airedFlags ← episodes.mapM (fun ep => (jGetE ep "first_aired" (.str "")).map pyTruthy)
    let aired_count := (airedFlags.filter (fun b => b)).length
    let ratingPairs ← episodes.mapM (fun ep => do
      let rv ← jGetE ep "rating" (.num 0)
      let pos ← jGtZero rv
      pure (rv, pos))
    let ratings := (ratingPairs.filter (fun p => p.2)).map (fun p => p.1)
    let avg_tenths : Int :=
      if !ratings.isEmpty then (10 * (ratings.map jNumVal).sum) / (ratings.length : Int) else 0
    let season_type := if season_num = 0 then "Specials" else "Season " ++ toString season_num
    let header := "📺 **" ++ season_type ++ " Episodes**\n"
    let totalLine := "**Total:** " ++ toString episodes.length ++ " episodes ("
      ++ toString aired_count ++ " aired)"
      ++ (if 0 < avg_tenths then " • ⭐ " ++ tenthsToStr avg_tenths ++ "/10" else "") ++ "\n"
    let lines ← episodes.mapM (fun ep => _format_episode_line ep season_num false none)
    pure (pyJoin "\n" (header :: totalLine :: lines))

/- ===================== The dispatcher (src/server.py) ===================== -/

/-- One `TextContent(type="text", text=...)` item. -/
structure TextContent where
  type : String
  text : String
deriving DecidableEq

/-- The `except` chain of `call_tool`: `KeyError` (whose `str()` is the
`repr` of the missing key), then `TraktAPIError`, then any `Exception`. -/
def excMessage : PyExc → String
  | .keyError k => "Missing required parameter: " ++ pySq ++ k ++ pySq
  | .trakt e => "Trakt API error: " ++ e.message
  | .valueError m => "Unexpected error: " ++ m
  | .typeError m => "Unexpected error: " ++ m
  | .other m => "Unexpected error: " ++ m

/-- Wrap the routed body in the `try`/`except` conversion. -/
def finalizeCall (b : Except PyExc (List TextContent)) : List TextContent :=
  match b with
  | .ok r => r
  | .error e => [⟨"text", excMessage e⟩]

/-- `arguments[key]` — raises `KeyError` when absent. -/
def dictGetItem (args : List (String × Json)) (key : String) : Except PyExc Json :=
  match args.lookup key with
  | some v => .ok v
  | none => .error (.keyError key)

/-- `_handle_get_watched_shows`. -/
def handle_get_watched_shows (exec : Exec) : Except PyExc (List TextContent) :=
  (get_watched_shows exec).1.map (fun data => [⟨"text", format_watched_shows data⟩])

/-- `_handle_get_watchlist`. -/
def handle_get_watchlist (exec : Exec) : Except PyExc (List TextContent) :=
  (get_watchlist exec).1.map (fun data => [⟨"text", format_watchlist data⟩])

/-- `_handle_search_shows`. -/
def handle_search_shows (exec : Exec) (query : Json) : Except PyExc (List TextContent) :=
  (search_shows exec query).1.map
    (fun data => [⟨"text", format_search_results (pyToStr query) data⟩])

/-- `_handle_add_to_watchlist`. -/
def handle_add_to_watchlist (exec : Exec) (show_id : Json) : Except PyExc (List TextContent) :=
  (add_to_watchlist exec show_id).1.map (fun data =>
    let added := jGetD (dictGetD data "added" (.obj [])) "shows" (.num 0)
    [⟨"text", "✓ Successfully added " ++ pyToStr added ++ " show(s) to your watchlist."⟩])

/-- `_handle_remove_from_watchlist`. -/
def handle_remove_from_watchlist (exec : Exec) (show_id : Json) : Except PyExc (List TextContent) :=
  (remove_from_watchlist exec show_id).1.map (fun data =>
    let deleted := jGetD (dictGetD data "deleted" (.obj [])) "shows" (.num 0)
    [⟨"text", "✓ Successfully removed " ++ pyToStr deleted ++ " show(s) from your watchlist."⟩])

/-- `_handle_get_trending_shows`. -/
def handle_get_trending_shows (exec : Exec) (limit : Json) : Except PyExc (List TextContent) :=
  (get_trending_shows exec limit).1.map (fun data => [⟨"text", format_trending_shows data⟩])

/-- The tool names `call_tool` routes (episode tools are not registered in
`src/server.py`). -/
def knownToolNames : List String :=
  ["get_watched_shows", "get_watchlist", "search_shows", "add_to_watchlist",
   "remove_from_watchlist", "get_trending_shows"]

/-- `TraktMCPServer.call_tool` (src/server.py): route by name, convert every
escaping exception into a single text content. -/
def call_tool (exec : Exec) (name : String) (arguments : List (String × Json)) :
    List TextContent :=
  finalizeCall
    (if name = "get_watched_shows" then handle_get_watched_shows exec
     else if name = "get_watchlist" then handle_get_watchlist exec
     else if name = "search_shows" then
       (dictGetItem arguments "query").bind (fun q => handle_search_shows exec q)
     else if name = "add_to_watchlist" then
       (dictGetItem arguments "show_id").bind (fun s => handle_add_to_watchlist exec s)
     else if name = "remove_from_watchlist" then
       (dictGetItem arguments "show_id").bind (fun s => handle_remove_from_watchlist exec s)
     else if name = "get_trending_shows" then
       handle_get_trending_shows exec (dictGetD arguments "limit" (.num 10))
     else .ok [⟨"text", "Unknown tool: " ++ name⟩])

/- ===================== Config validation (src/config/__init__.py) ===================== -/

/-- `not os.getenv(...)` — falsy when unset or empty. -/
def pyFalsyOptStr : Option String → Bool
  | none => true
  | some s => s == ""

/-- The three environment values the package `__init__` reads (this is the
module `src/api/__init__.py` imports; `src/config/settings.py` is an unused
two-variable variant). -/
structure EnvConfig where
  TRAKT_CLIENT_ID : Option String
  TRAKT_ACCESS_TOKEN : Option String
  TRAKT_API_VERSION : Option String

/-- The `missing` list accumulated by `validate_config`, in source order. -/
def missingVars (c : EnvConfig) : List String :=
  (if pyFalsyOptStr c.TRAKT_CLIENT_ID then ["TRAKT_CLIENT_ID"] else [])
    ++ (if pyFalsyOptStr c.TRAKT_ACCESS_TOKEN then ["TRAKT_ACCESS_TOKEN"] else [])
    ++ (if pyFalsyOptStr c.TRAKT_API_VERSION then ["TRAKT_API_VERSION"] else [])

/-- Python `str()` of a list of strings (as interpolated into the message). -/
def pyStrListRepr (xs : List String) : String :=
  "[" ++ pyJoin ", " (xs.map (fun s => pySq ++ s ++ pySq)) ++ "]"

/-- `validate_config` — runs at import time, before any client can be
constructed or any request attempted; `.error` stands for the raised
`ValueError`. -/
def validate_config (c : EnvConfig) : Except String Unit :=
  if !(missingVars c).isEmpty then
    .error ("Missing environment variables: " ++ pyStrListRepr (missingVars c))
  else .ok ()

/-- A 1000-character response body, used to exhibit that the generic API
error embeds the body untruncated. -/
def longBody : String := String.mk (List.replicate 1000 'a')

/- ===================== Helper lemmas ===================== -/

theorem str_append_assoc (a b c : String) : a ++ b ++ c = a ++ (b ++ c) := by
  cases a with
  | mk la =>
    cases b with
    | mk lb =>
      cases c with
      | mk lc =>
        show String.mk (la ++ lb ++ lc) = String.mk (la ++ (lb ++ lc))
        rw [List.append_assoc]

theorem attemptOnce_fault {o : TransportOutcome} (h : o.isFault = true) :
    ∃ e, attemptOnce o = .error e ∧ e.kind = TraktErrorKind.network := by
  cases o with
  | response r => simp [TransportOutcome.isFault] at h
  | timeout m => exact ⟨_, rfl, rfl⟩
  | connectError m => exact ⟨_, rfl, rfl⟩
  | requestError m => exact ⟨_, rfl, rfl⟩

theorem attemptOnce_2xx {r : HTTPResponse} (h : is2xx r.status_code = true) :
    ∃ v, attemptOnce (.response r) = .ok v := by
  simp only [attemptOnce, h, if_true]
  split
  · exact ⟨_, rfl⟩
  · exact ⟨_, rfl⟩

theorem attemptOnce_nonSuccess {r : HTTPResponse} (h : is2xx r.status_code = false) :
    ∃ e, attemptOnce (.response r) = .error e ∧ e.kind ≠ TraktErrorKind.network := by
  simp only [attemptOnce, h, Bool.false_eq_true, if_false]
  split
  · exact ⟨_, rfl, by decide⟩
  · split
    · exact ⟨_, rfl, by decide⟩
    · split
      · exact ⟨_, rfl, by decide⟩
      · exact ⟨_, rfl, by simp [TraktAPIError.make]⟩

theorem pyJoin_cons_cons (sep a b : String) (rest : List String) :
    pyJoin sep (a :: b :: rest) = a ++ (sep ++ pyJoin sep (b :: rest)) :=
  str_append_assoc a sep (pyJoin sep (b :: rest))

theorem season_header_merge (n : Int) (Z : String) :
    "📺 **" ++ (("Season " ++ toString n) ++ Z) = "📺 **Season " ++ (toString n ++ Z) := by
  calc "📺 **" ++ (("Season " ++ toString n) ++ Z)
      = ("📺 **" ++ ("Season " ++ toString n)) ++ Z := (str_append_assoc _ _ _).symm
    _ = (("📺 **" ++ "Season ") ++ toString n) ++ Z := by
        rw [← str_append_assoc "📺 **" "Season " (toString n)]
    _ = "📺 **Season " ++ (toString n ++ Z) := by
        rw [str_append_assoc]
        rfl

theorem season_header_prefix (n : Int) (hzero : ¬(n = 0)) (b : String) (L : List String) :
    pyJoin "\n"
        ((("📺 **" ++ (if n = 0 then "Specials" else "Season " ++ toString n)) ++ " Episodes**\n")
          :: b :: L)
      = "📺 **Season " ++ (toString n ++ (" Episodes**\n" ++ ("\n" ++ pyJoin "\n" (b :: L)))) := by
  rw [if_neg hzero, pyJoin_cons_cons, str_append_assoc, str_append_assoc, season_header_merge]

theorem except_bind_ok {α β : Type} {x : Except PyExc α} {g : α → Except PyExc β} {b : β}
    (h : x >>= g = .ok b) : ∃ a, x = .ok a ∧ g a = .ok b := by
  cases x with
  | ok a => exact ⟨a, rfl, h⟩
  | error e => simp [Bind.bind, Except.bind] at h

theorem finalize_shape {x : Except PyExc (List TextContent)}
    (hok : ∀ r, x = .ok r → ∃ m, r = [⟨"text", m⟩]) :
    ∃ m, finalizeCall x = [⟨"text", m⟩] := by
  cases x with
  | ok r =>
    obtain ⟨m, hm⟩ := hok r rfl
    exact ⟨m, hm⟩
  | error e => exact ⟨excMessage e, rfl⟩

theorem handler_ok_single {α : Type} (x : Except PyExc α) (f : α → List TextContent)
    (hf : ∀ a, ∃ m, f a = [⟨"text", m⟩]) :
    ∀ r, x.map f = .ok r → ∃ m, r = [⟨"text", m⟩] := by
  intro r hr
  cases x with
  | ok a =>
    simp only [Except.map] at hr
    obtain h := Except.ok.inj hr
    subst h
    exact hf a
  | error e => simp [Except.map] at hr

theorem bind_ok_single (x : Except PyExc Json) (g : Json → Except PyExc (List TextContent))
    (hg : ∀ v r, g v = .ok r → ∃ m, r = [⟨"text", m⟩]) :
    ∀ r, x.bind g = .ok r → ∃ m, r = [⟨"text", m⟩] := by
  intro r hr
  cases x with
  | ok a => exact hg a r hr
  | error e => simp [Except.bind] at hr

theorem parseDigitsCore_all_digits : ∀ (cs : List Char) (acc : Nat),
    cs.all Char.isDigit = true → ∃ n, parseDigitsCore cs acc = some n := by
  intro cs
  induction cs with
  | nil => exact fun acc _ => ⟨acc, rfl⟩
  | cons c t ih =>
    intro acc h
    rw [List.all_cons, Bool.and_eq_true] at h
    simp only [parseDigitsCore, h.1, if_true]
    exact ih _ h.2

theorem isDigit_not_ws {c : Char} (h : c.isDigit = true) : c.isWhitespace = false := by
  by_contra hw
  rw [Bool.not_eq_false] at hw
  simp only [Char.isWhitespace, Bool.or_eq_true, decide_eq_true_eq] at hw
  rcases hw with ((h1 | h1) | h1) | h1 <;> (subst h1; exact absurd h (by decide))

theorem digit_ne_plus {c : Char} (h : c.isDigit = true) : ¬(c = '+') :=
  fun e => by subst e; exact absurd h (by decide)

theorem digit_ne_minus {c : Char} (h : c.isDigit = true) : ¬(c = '-') :=
  fun e => by subst e; exact absurd h (by decide)

theorem pyInt_digits_head {s : String} {c : Char} {t : List Char}
    (hl : s.toList = c :: t) (hstrip : stripWs (c :: t) = c :: t) (hc : c.isDigit = true) :
    pyInt s = (parseUnsigned (c :: t)).map Int.ofNat := by
  unfold pyInt
  rw [hl, hstrip]
  simp only [List.head?]
  split
  · rename_i hcond
    rw [Option.some.injEq] at hcond
    exact absurd hcond (digit_ne_plus hc)
  · split
    · rename_i hcond
      rw [Option.some.injEq] at hcond
      exact absurd hcond (digit_ne_minus hc)
    · rfl

theorem stripWs_digits {cs : List Char} (h : cs.all Char.isDigit = true) :
    stripWs cs = cs := by
  unfold stripWs
  have h1 : cs.dropWhile Char.isWhitespace = cs := by
    cases cs with
    | nil => rfl
    | cons c t =>
      have hc : c.isDigit = true := by
        rw [List.all_cons, Bool.and_eq_true] at h
        exact h.1
      simp [List.dropWhile, isDigit_not_ws hc]
  rw [h1]
  have h2 : cs.reverse.dropWhile Char.isWhitespace = cs.reverse := by
    cases hr : cs.reverse with
    | nil => rfl
    | cons c t =>
      have hmem : c ∈ cs := by
        have : c ∈ cs.reverse := by rw [hr]; exact List.mem_cons_self c t
        simpa using this
      have hd : c.isDigit = true := by
        rw [List.all_eq_true] at h
        exact h c hmem
      simp [List.dropWhile, isDigit_not_ws hd]
  rw [h2, List.reverse_reverse]

/- ===================== Claim theorems ===================== -/

/-- C1 (as amended): for transport faults, `_make_request` retries up to 3
total attempts and propagates the last `NetworkError`, but the inter-attempt
sleeps are 2s then 2s, not 2s then 4s: tenacity computes
`multiplier * 2 ^ (attempt_number - 1)` (raw values 1 and 2 here) and the
`min=2` floor clamps both to 2.  A retried attempt that yields a 2xx
response stops the loop and returns the success; a non-2xx HTTP response is
executed exactly once and never retried. -/
theorem C1_make_request_retry_policy (outcomes : Nat → TransportOutcome) :
    ((∀ i, i < 3 → (outcomes i).isFault = true) →
      ∃ e, attemptOnce (outcomes 2) = .error e ∧ e.kind = TraktErrorKind.network ∧
        make_request outcomes = (.error e, 3, [2, 2]))
    ∧ (∀ k, k < 3 → (∀ i, i < k → (outcomes i).isFault = true) →
        ∀ r, outcomes k = .response r → is2xx r.status_code = true →
          ∃ v, attemptOnce (outcomes k) = .ok v ∧
            make_request outcomes = (.ok v, k + 1, List.take k [2, 2]))
    ∧ (∀ r, outcomes 0 = .response r → is2xx r.status_code = false →
        ∃ e, attemptOnce (outcomes 0) = .error e ∧ e.kind ≠ TraktErrorKind.network ∧
          make_request outcomes = (.error e, 1, [])) := by
  refine ⟨?_, ?_, ?_⟩
  · intro h
    obtain ⟨e0, he0, hk0⟩ := attemptOnce_fault (h 0 (by omega))
    obtain ⟨e1, he1, hk1⟩ := attemptOnce_fault (h 1 (by omega))
    obtain ⟨e2, he2, hk2⟩ := attemptOnce_fault (h 2 (by omega))
    refine ⟨e2, he2, hk2, ?_⟩
    simp [make_request, retryRun, he0, he1, he2, hk0, hk1, hk2, wait_exponential]
  · intro k hk hf r hr h2
    obtain ⟨v, hv⟩ := attemptOnce_2xx h2
    rw [← hr] at hv
    refine ⟨v, hv, ?_⟩
    interval_cases k
    · simp [make_request, retryRun, hv]
    · obtain ⟨e0, he0, hk0⟩ := attemptOnce_fault (hf 0 (by omega))
      simp [make_request, retryRun, he0, hk0, hv, wait_exponential]
    · obtain ⟨e0, he0, hk0⟩ := attemptOnce_fault (hf 0 (by omega))
      obtain ⟨e1, he1, hk1⟩ := attemptOnce_fault (hf 1 (by omega))
      simp [make_request, retryRun, he0, hk0, he1, hk1, hv, wait_exponential]
  · intro r hr h2
    obtain ⟨e, he, hke⟩ := attemptOnce_nonSuccess h2
    rw [← hr] at he
    refine ⟨e, he, hke, ?_⟩
    simp [make_request, retryRun, he, hke]

/-- C1 counterexample: with every attempt timing out, the program sleeps 2s
and then 2s — the delay schedule of the claim as stated, 2s then 4s, is not
what `wait_exponential(multiplier=1, min=2, max=10)` produces (its raw
values 1 and 2 are both clamped up to the `min=2` floor). -/
theorem C1_delay_counterexample :
    make_request (fun _ => TransportOutcome.timeout "boom")
      = (.error (NetworkError.make "Request timeout: boom"), 3, [2, 2])
    ∧ (make_request (fun _ => TransportOutcome.timeout "boom")).2.2 ≠ [2, 4]
    ∧ wait_exponential 1 2 10 1 = 2 ∧ wait_exponential 1 2 10 2 = 2 := by
  refine ⟨?_, ?_, rfl, rfl⟩
  · simp [make_request, retryRun, attemptOnce, wait_exponential, NetworkError.make]
  · simp [make_request, retryRun, attemptOnce, wait_exponential, NetworkError.make]

/-- C1 witness: three timeouts in a row give the last network error after 3
attempts with sleeps of 2s and 2s. -/
theorem C1_retry_witness :
    make_request (fun _ => TransportOutcome.timeout "boom")
      = (.error (NetworkError.make "Request timeout: boom"), 3, [2, 2]) := by
  obtain ⟨e, he, hk, hres⟩ :=
    (C1_make_request_retry_policy (fun _ => .timeout "boom")).1 (fun i _ => rfl)
  have h : NetworkError.make "Request timeout: boom" = e := Except.error.inj he
  rw [← h] at hres
  exact hres

/-- C2: for every tool name, argument mapping, and outcome of the underlying
client call (including taxonomy errors, missing-argument `KeyError`, unknown
tool names and arbitrary other exceptions), `call_tool` returns a singleton
text-content list and never propagates a fault: each error class is
converted to its user-visible message. -/
theorem C2_call_tool_total (exec : Exec) (name : String)
    (arguments : List (String × Json)) :
    (∃ msg, call_tool exec name arguments = [⟨"text", msg⟩])
    ∧ (name ∉ knownToolNames →
        call_tool exec name arguments = [⟨"text", "Unknown tool: " ++ name⟩])
    ∧ (name = "search_shows" → arguments.lookup "query" = none →
        call_tool exec name arguments
          = [⟨"text", "Missing required parameter: " ++ pySq ++ "query" ++ pySq⟩])
    ∧ (∀ e, name = "get_watched_shows" → (get_watched_shows exec).1 = .error e →
        call_tool exec name arguments = [⟨"text", excMessage e⟩]) := by
  refine ⟨?_, ?_, ?_, ?_⟩
  · by_cases h1 : name = "get_watched_shows"
    · subst h1
      show ∃ m, finalizeCall (handle_get_watched_shows exec) = [⟨"text", m⟩]
      exact finalize_shape (handler_ok_single _ _ (fun a => ⟨_, rfl⟩))
    by_cases h2 : name = "get_watchlist"
    · subst h2
      show ∃ m, finalizeCall (handle_get_watchlist exec) = [⟨"text", m⟩]
      exact finalize_shape (handler_ok_single _ _ (fun a => ⟨_, rfl⟩))
    by_cases h3 : name = "search_shows"
    · subst h3
      show ∃ m, finalizeCall ((dictGetItem arguments "query").bind
        (fun q => handle_search_shows exec q)) = [⟨"text", m⟩]
      exact finalize_shape (bind_ok_single _ _
        (fun v r hr => handler_ok_single _ _ (fun a => ⟨_, rfl⟩) r hr))
    by_cases h4 : name = "add_to_watchlist"
    · subst h4
      show ∃ m, finalizeCall ((dictGetItem arguments "show_id").bind
        (fun s => handle_add_to_watchlist exec s)) = [⟨"text", m⟩]
      exact finalize_shape (bind_ok_single _ _
        (fun v r hr => handler_ok_single _ _ (fun a => ⟨_, rfl⟩) r hr))
    by_cases h5 : name = "remove_from_watchlist"
    · subst h5
      show ∃ m, finalizeCall ((dictGetItem arguments "show_id").bind
        (fun s => handle_remove_from_watchlist exec s)) = [⟨"text", m⟩]
      exact finalize_shape (bind_ok_single _ _
        (fun v r hr => handler_ok_single _ _ (fun a => ⟨_, rfl⟩) r hr))
    by_cases h6 : name = "get_trending_shows"
    · subst h6
      show ∃ m, finalizeCall (handle_get_trending_shows exec
        (dictGetD arguments "limit" (.num 10))) = [⟨"text", m⟩]
      exact finalize_shape (handler_ok_single _ _ (fun a => ⟨_, rfl⟩))
    · refine ⟨"Unknown tool: " ++ name, ?_⟩
      unfold call_tool
      rw [if_neg h1, if_neg h2, if_neg h3, if_neg h4, if_neg h5, if_neg h6]
      rfl
  · intro hmem
    have h1 : ¬(name = "get_watched_shows") := by
      intro e; subst e; exact hmem (by decide)
    have h2 : ¬(name = "get_watchlist") := by
      intro e; subst e; exact hmem (by decide)
    have h3 : ¬(name = "search_shows") := by
      intro e; subst e; exact hmem (by decide)
    have h4 : ¬(name = "add_to_watchlist") := by
      intro e; subst e; exact hmem (by decide)
    have h5 : ¬(name = "remove_from_watchlist") := by
      intro e; subst e; exact hmem (by decide)
    have h6 : ¬(name = "get_trending_shows") := by
      intro e; subst e; exact hmem (by decide)
    unfold call_tool
    rw [if_neg h1, if_neg h2, if_neg h3, if_neg h4, if_neg h5, if_neg h6]
    rfl
  · intro hn hq
    subst hn
    show finalizeCall ((dictGetItem arguments "query").bind
      (fun q => handle_search_shows exec q))
      = [⟨"text", "Missing required parameter: " ++ pySq ++ "query" ++ pySq⟩]
    simp only [dictGetItem, hq]
    rfl
  · intro e hn herr
    subst hn
    show finalizeCall (handle_get_watched_shows exec) = [⟨"text", excMessage e⟩]
    simp only [handle_get_watched_shows]
    rw [herr]
    rfl

/-- C2 witness: an unknown tool name yields the conversion message rather
than a fault. -/
theorem C2_call_tool_witness :
    call_tool (fun _ => .ok (.arr [])) "nonexistent_tool" []
      = [⟨"text", "Unknown tool: nonexistent_tool"⟩] :=
  (C2_call_tool_total (fun _ => .ok (.arr [])) "nonexistent_tool" []).2.1 (by decide)

/-- C3 (as amended): for any other non-2xx status (not 401/404/429),
`_make_request` fails after exactly one attempt with a `TraktAPIError` that
carries the status code and the FULL response body text in its message; the
~200-character truncation in the source applies only to the log line
(`e.response.text[:200]` appears in `logger.error`, not in the raised
exception). -/
theorem C3_generic_error_full_body (r : HTTPResponse) (h2 : is2xx r.status_code = false)
    (h401 : r.status_code ≠ 401) (h404 : r.status_code ≠ 404) (h429 : r.status_code ≠ 429) :
    attemptOnce (.response r)
      = .error (TraktAPIError.make ("HTTP " ++ toString r.status_code ++ ": " ++ r.text)
          (some r.status_code))
    ∧ make_request (fun _ => .response r)
      = (.error (TraktAPIError.make ("HTTP " ++ toString r.status_code ++ ": " ++ r.text)
          (some r.status_code)), 1, []) := by
  have h : attemptOnce (.response r)
      = .error (TraktAPIError.make ("HTTP " ++ toString r.status_code ++ ": " ++ r.text)
          (some r.status_code)) := by
    simp only [attemptOnce, h2, Bool.false_eq_true, if_false]
    rw [if_neg h401, if_neg h404, if_neg h429]
  refine ⟨h, ?_⟩
  simp [make_request, retryRun, h, TraktAPIError.make]

/-- C3 counterexample: a 500 response with a 1000-character body produces an
error whose embedded message is 1010 characters long — the body is not
truncated to ~200 characters in the raised error, contradicting the claim as
stated. -/
theorem C3_truncation_counterexample :
    attemptOnce (.response ⟨500, longBody, .null⟩)
      = .error (TraktAPIError.make ("HTTP 500: " ++ longBody) (some 500))
    ∧ ("HTTP 500: " ++ longBody).length = 1010
    ∧ 200 < longBody.length := by
  have hlen : longBody.length = 1000 := by
    rw [longBody, String.length_mk, List.length_replicate]
  refine ⟨rfl, ?_, ?_⟩
  · rw [String.length_append, hlen]
    rfl
  · rw [hlen]
    norm_num

/-- C3 witness: a concrete 500 response fails once with the full body in the
error message. -/
theorem C3_generic_error_witness :
    attemptOnce (.response ⟨500, "oops", .null⟩)
      = .error (TraktAPIError.make ("HTTP 500: oops") (some 500))
    ∧ make_request (fun _ => .response ⟨500, "oops", .null⟩)
      = (.error (TraktAPIError.make ("HTTP 500: oops") (some 500)), 1, []) := by
  have h := C3_generic_error_full_body ⟨500, "oops", .null⟩ rfl (by decide) (by decide) (by decide)
  exact h

/-- C4: a 2xx response with status 204 or an empty body yields an empty
result independently of what JSON parsing would produce; any other 2xx
response yields the parsed JSON verbatim; either way exactly one attempt is
made. -/
theorem C4_2xx_body_handling (r : HTTPResponse) (h : is2xx r.status_code = true) :
    ((r.status_code = 204 ∨ r.text = "") →
      ∀ j, attemptOnce (.response ⟨r.status_code, r.text, j⟩) = .ok (.obj []))
    ∧ (r.status_code ≠ 204 → r.text ≠ "" → attemptOnce (.response r) = .ok r.json)
    ∧ (∀ v, attemptOnce (.response r) = .ok v →
        make_request (fun _ => .response r) = (.ok v, 1, [])) := by
  refine ⟨?_, ?_, ?_⟩
  · intro hemp j
    rcases hemp with h204 | hbody
    · simp [attemptOnce, h204, show is2xx 204 = true from rfl]
    · simp [attemptOnce, h, hbody]
  · intro h204 hbody
    simp [attemptOnce, h, h204, hbody]
  · intro v hv
    simp [make_request, retryRun, hv]

/-- C4 witness: a 204 returns an empty dict ignoring the parsed value; a 200
with body returns the parsed value after a single attempt. -/
theorem C4_2xx_witness :
    attemptOnce (.response ⟨204, "", .num 5⟩) = .ok (.obj [])
    ∧ attemptOnce (.response ⟨200, "[1]", .arr [.num 1]⟩) = .ok (.arr [.num 1])
    ∧ make_request (fun _ => .response ⟨200, "[1]", .arr [.num 1]⟩)
        = (.ok (.arr [.num 1]), 1, []) := by
  refine ⟨?_, ?_, ?_⟩
  · exact (C4_2xx_body_handling ⟨204, "", .null⟩ rfl).1 (Or.inl rfl) (.num 5)
  · exact (C4_2xx_body_handling ⟨200, "[1]", .arr [.num 1]⟩ rfl).2.1 (by decide) (by decide)
  · exact (C4_2xx_body_handling ⟨200, "[1]", .arr [.num 1]⟩ rfl).2.2 _
      ((C4_2xx_body_handling ⟨200, "[1]", .arr [.num 1]⟩ rfl).2.1 (by decide) (by decide))

/-- C5: a 401 response fails with `AuthenticationError` after exactly one
attempt; the error carries status 401 and the fixed default message
directing the operator to configure `TRAKT_ACCESS_TOKEN`. -/
theorem C5_auth_401 (r : HTTPResponse) (h : r.status_code = 401) :
    attemptOnce (.response r) = .error AuthenticationError.make
    ∧ make_request (fun _ => .response r) = (.error AuthenticationError.make, 1, [])
    ∧ AuthenticationError.make.message
        = "Authentication required. Please configure TRAKT_ACCESS_TOKEN."
    ∧ AuthenticationError.make.status_code = some 401 := by
  have ha : attemptOnce (.response r) = .error AuthenticationError.make := by
    simp [attemptOnce, h, show is2xx 401 = false from rfl]
  refine ⟨ha, ?_, rfl, rfl⟩
  simp [make_request, retryRun, ha, AuthenticationError.make]

/-- C5 witness: a concrete 401 response. -/
theorem C5_auth_witness :
    attemptOnce (.response ⟨401, "denied", .null⟩) = .error AuthenticationError.make
    ∧ make_request (fun _ => .response ⟨401, "denied", .null⟩)
        = (.error AuthenticationError.make, 1, []) := by
  have h := C5_auth_401 ⟨401, "denied", .null⟩ rfl
  exact ⟨h.1, h.2.1⟩

/-- C6: every list-returning client method passes a list result through and
coerces any other shape to `[]`; every dict-returning method passes a dict
through and coerces any other shape to `{}` — no shape error escapes a
wrapper. -/
theorem C6_shape_coercion (v : Json) :
    ((get_watched_shows (fun _ => .ok v)).1 = .ok (coerceToList v)
      ∧ (get_watchlist (fun _ => .ok v)).1 = .ok (coerceToList v)
      ∧ (search_shows (fun _ => .ok v) (.str "q")).1 = .ok (coerceToList v)
      ∧ (get_trending_shows (fun _ => .ok v) (.num 10)).1 = .ok (coerceToList v)
      ∧ (get_show_all_episodes (fun _ => .ok v) (.str "1")).1 = .ok (coerceToList v)
      ∧ (get_show_season_episodes (fun _ => .ok v) (.str "1") 1).1 = .ok (coerceToList v)
      ∧ (add_to_watchlist (fun _ => .ok v) (.str "1")).1 = .ok (coerceToDict v)
      ∧ (remove_from_watchlist (fun _ => .ok v) (.str "1")).1 = .ok (coerceToDict v)
      ∧ (mark_episode_as_watched (fun _ => .ok v) (.str "1")).1 = .ok (coerceToDict v))
    ∧ ((∀ xs, v = .arr xs → coerceToList v = xs)
      ∧ (v.isArr = false → coerceToList v = []))
    ∧ ((∀ fs, v = .obj fs → coerceToDict v = fs)
      ∧ (v.isObj = false → coerceToDict v = [])) := by
  refine ⟨⟨rfl, rfl, rfl, rfl, rfl, rfl, rfl, rfl, rfl⟩, ⟨?_, ?_⟩, ⟨?_, ?_⟩⟩
  · intro xs h
    subst h
    rfl
  · intro h
    cases v <;> first | rfl | simp [Json.isArr] at h
  · intro fs h
    subst h
    rfl
  · intro h
    cases v <;> first | rfl | simp [Json.isObj] at h

/-- C6 witness: a numeric (non-collection) result is coerced to empty
collections by list- and dict-returning wrappers alike. -/
theorem C6_shape_witness :
    (get_watched_shows (fun _ => .ok (.num 7))).1 = .ok []
    ∧ (add_to_watchlist (fun _ => .ok (.num 7)) (.str "1")).1 = .ok []
    ∧ coerceToList (.num 7) = [] ∧ coerceToDict (.num 7) = [] := by
  have h := C6_shape_coercion (.num 7)
  refine ⟨?_, ?_, h.2.1.2 rfl, h.2.2.2 rfl⟩
  · have h1 := h.1.1
    rw [h1, h.2.1.2 rfl]
  · have h2 := h.1.2.2.2.2.2.2.1
    rw [h2, h.2.2.2 rfl]

/-- C7: `validate_config` fails, naming exactly the unset-or-empty
environment variables, whenever any of the three required values is missing,
and succeeds when all three are present; it runs at import time, before any
request can be attempted. -/
theorem C7_validate_config (c : EnvConfig) :
    ((pyFalsyOptStr c.TRAKT_CLIENT_ID || pyFalsyOptStr c.TRAKT_ACCESS_TOKEN
        || pyFalsyOptStr c.TRAKT_API_VERSION) = true →
      validate_config c
        = .error ("Missing environment variables: " ++ pyStrListRepr (missingVars c))
      ∧ missingVars c ≠ [])
    ∧ ((pyFalsyOptStr c.TRAKT_CLIENT_ID || pyFalsyOptStr c.TRAKT_ACCESS_TOKEN
        || pyFalsyOptStr c.TRAKT_API_VERSION) = false → validate_config c = .ok ())
    ∧ (∀ x, x ∈ missingVars c ↔
        ((x = "TRAKT_CLIENT_ID" ∧ pyFalsyOptStr c.TRAKT_CLIENT_ID = true)
        ∨ (x = "TRAKT_ACCESS_TOKEN" ∧ pyFalsyOptStr c.TRAKT_ACCESS_TOKEN = true)
        ∨ (x = "TRAKT_API_VERSION" ∧ pyFalsyOptStr c.TRAKT_API_VERSION = true))) := by
  cases h1 : pyFalsyOptStr c.TRAKT_CLIENT_ID <;>
    cases h2 : pyFalsyOptStr c.TRAKT_ACCESS_TOKEN <;>
      cases h3 : pyFalsyOptStr c.TRAKT_API_VERSION <;>
        simp_all [validate_config, missingVars]

/-- C7 witness: a missing access token is reported by name; a complete
configuration validates. -/
theorem C7_validate_witness :
    validate_config ⟨none, some "tok", some "2"⟩
      = .error ("Missing environment variables: "
          ++ pyStrListRepr (missingVars ⟨none, some "tok", some "2"⟩))
    ∧ missingVars ⟨none, some "tok", some "2"⟩ ≠ []
    ∧ validate_config ⟨some "id", some "tok", some "2"⟩ = .ok () := by
  refine ⟨?_, ?_, ?_⟩
  · exact ((C7_validate_config ⟨none, some "tok", some "2"⟩).1 rfl).1
  · exact ((C7_validate_config ⟨none, some "tok", some "2"⟩).1 rfl).2
  · exact (C7_validate_config ⟨some "id", some "tok", some "2"⟩).2.1 rfl

/-- C8: for every numeric show id, `add_to_watchlist` issues exactly one
POST to /sync/watchlist whose JSON body wraps the integer id as
`shows[0].ids.trakt`. -/
theorem C8_add_to_watchlist_body (s : String) (n : Int) (exec : Exec)
    (h : pyInt s = some n) :
    add_to_watchlist exec (.str s)
      = ((exec ⟨"POST", "/sync/watchlist", [], some (showsPayload n)⟩).map coerceToDict,
          [⟨"POST", "/sync/watchlist", [], some (showsPayload n)⟩])
    ∧ showsPayload n
      = .obj [("shows", .arr [.obj [("ids", .obj [("trakt", .num n)])]])] := by
  refine ⟨?_, rfl⟩
  simp [add_to_watchlist, pyIntOfJson, h]

/-- C8 witness: `add_to_watchlist("123")` issues exactly the POST with body
`{"shows":[{"ids":{"trakt":123}}]}`. -/
theorem C8_add_to_watchlist_witness :
    pyInt "123" = some 123
    ∧ (add_to_watchlist (fun _ => .ok (.obj [])) (.str "123")).2
        = [⟨"POST", "/sync/watchlist", [],
            some (.obj [("shows", .arr [.obj [("ids", .obj [("trakt", .num 123)])]])])⟩] := by
  refine ⟨rfl, ?_⟩
  rw [(C8_add_to_watchlist_body "123" 123 (fun _ => .ok (.obj [])) rfl).1]
  rfl

/-- C9: whenever the single-season formatter produces an output for a
nonempty episode list (it raises, as the Python does, on episodes whose
fields are ill-typed — e.g. a missing `"number"` makes `{ep_num:02d}` raise
`ValueError` on the `"?"` default), that output is headed "Specials" for
season 0 — never "Season 0" — and "Season n" for every n ≥ 1; the
empty-list early return touches no episode, cannot raise, and uses the
lowercase phrase "season 0" with no season label at all. -/
theorem C9_season_label (eps : List Json) (h : eps ≠ []) :
    (∀ s, format_show_season_episodes eps 0 = .ok s →
        ∃ rest, s = "📺 **Specials Episodes**\n" ++ ("\n" ++ rest))
    ∧ (∀ n : Int, 1 ≤ n → ∀ s, format_show_season_episodes eps n = .ok s →
        ∃ rest, s = "📺 **Season " ++ (toString n ++ (" Episodes**\n" ++ ("\n" ++ rest))))
    ∧ format_show_season_episodes [] 0 = .ok "📺 No episodes found for season 0." := by
  refine ⟨?_, ?_, rfl⟩
  · intro s hs
    cases eps with
    | nil => exact absurd rfl h
    | cons e t =>
      obtain ⟨af, haf, hs⟩ := except_bind_ok hs
      obtain ⟨rp, hrp, hs⟩ := except_bind_ok hs
      obtain ⟨ls, hls, hs⟩ := except_bind_ok hs
      obtain rfl : _ = s := Except.ok.inj hs
      exact ⟨_, rfl⟩
  · intro n hn s hs
    cases eps with
    | nil => exact absurd rfl h
    | cons e t =>
      have hzero : ¬(n = 0) := by omega
      obtain ⟨af, haf, hs⟩ := except_bind_ok hs
      obtain ⟨rp, hrp, hs⟩ := except_bind_ok hs
      obtain ⟨ls, hls, hs⟩ := except_bind_ok hs
      obtain rfl : _ = s := Except.ok.inj hs
      exact ⟨_, season_header_prefix n hzero _ _⟩

/-- C9 witness: a well-formed one-episode list for season 0 succeeds and is
headed "Specials". -/
theorem C9_season_witness :
    ([Json.obj [("number", Json.num 1)]] ≠ ([] : List Json))
    ∧ format_show_season_episodes [Json.obj [("number", Json.num 1)]] 0
        = .ok ("📺 **Specials Episodes**\n\n**Total:** 1 episodes (0 aired)\n\n0x01 - **Untitled**\n  Aired: TBA\n  Episode ID: N/A")
    ∧ (∃ rest,
        ("📺 **Specials Episodes**\n\n**Total:** 1 episodes (0 aired)\n\n0x01 - **Untitled**\n  Aired: TBA\n  Episode ID: N/A" : String)
          = "📺 **Specials Episodes**\n" ++ ("\n" ++ rest)) := by
  refine ⟨by simp, rfl, ?_⟩
  exact (C9_season_label [Json.obj [("number", Json.num 1)]] (by simp)).1 _ rfl

/-- C10: an id string that does not parse as an integer makes
`add_to_watchlist`, `remove_from_watchlist` and `mark_episode_as_watched`
raise `ValueError` — outside the taxonomy — before any request is issued
(the issued-request list is empty); and every string matching `^[0-9]+$`
(the pattern the tool schemas enforce) parses, so that branch is unreachable
under the adapters' argument validation. -/
theorem C10_int_conversion :
    (∀ (s : String) (exec : Exec), pyInt s = none →
      add_to_watchlist exec (.str s)
        = (.error (.valueError
            ("invalid literal for int() with base 10: " ++ pySq ++ s ++ pySq)), [])
      ∧ remove_from_watchlist exec (.str s)
        = (.error (.valueError
            ("invalid literal for int() with base 10: " ++ pySq ++ s ++ pySq)), [])
      ∧ mark_episode_as_watched exec (.str s)
        = (.error (.valueError
            ("invalid literal for int() with base 10: " ++ pySq ++ s ++ pySq)), []))
    ∧ (∀ s : String, matchesDigitsOnly s = true → ∃ n, pyInt s = some n) := by
  constructor
  · intro s exec h
    refine ⟨?_, ?_, ?_⟩
    · simp [add_to_watchlist, pyIntOfJson, h]
    · simp [remove_from_watchlist, pyIntOfJson, h]
    · simp [mark_episode_as_watched, pyIntOfJson, h]
  · intro s hs
    rw [matchesDigitsOnly, Bool.and_eq_true] at hs
    obtain ⟨hne, hall⟩ := hs
    have hstrip : stripWs s.toList = s.toList := stripWs_digits hall
    cases hl : s.toList with
    | nil => rw [hl] at hne; simp at hne
    | cons c t =>
      have hc : c.isDigit = true := by
        rw [hl, List.all_cons, Bool.and_eq_true] at hall
        exact hall.1
      rw [hl] at hstrip
      rw [pyInt_digits_head hl hstrip hc]
      simp only [parseUnsigned, hc, if_true]
      obtain ⟨n, hn⟩ := parseDigitsCore_all_digits (c :: t) 0 (hl ▸ hall)
      rw [hn]
      exact ⟨Int.ofNat n, rfl⟩

/-- C10 witness: "12a" raises `ValueError` with no request issued; "007"
matches the schema pattern and parses. -/
theorem C10_int_witness :
    pyInt "12a" = none
    ∧ add_to_watchlist (fun _ => .ok (.obj [])) (.str "12a")
        = (.error (.valueError
            ("invalid literal for int() with base 10: " ++ pySq ++ "12a" ++ pySq)), [])
    ∧ matchesDigitsOnly "007" = true
    ∧ (∃ n, pyInt "007" = some n) := by
  refine ⟨rfl, (C10_int_conversion.1 "12a" _ rfl).1, rfl, C10_int_conversion.2 "007" rfl⟩
